import Mathlib

/-!
Verification development for the hitbtc-cryptoexchange-api client library.

The repository contains two variants of the same client in `src/index.ts`:

* a "Basic Auth" variant (first half of the file): `publicRequest` /
  `privateRequest` attach HTTP Basic Auth built from an `IApiAuth` key pair;
* an "HMAC" variant (second half): `getPublicEndpoint` and
  `get/post/put/patch/deleteFromPrivateEndpoint`, plus an exported
  `signMessage` HMAC-SHA256 signing helper.

This file gives a shallow embedding of both variants.  JavaScript values that
matter to the claims (error objects probed by the rejection-unwrapping chain)
are modelled by the inductive `JsVal`, with JS truthiness and the semantics of
property access on `undefined`/`null` (a thrown TypeError) made explicit.
Request construction is modelled as a pure function from the agent state and
the call arguments to an `Outcome`: either a pre-flight rejection (no network
request), a thrown TypeError, or an outgoing request description
(`AgentConfig`, mirroring the axios config object the code builds).  The
external HMAC-SHA256 primitive from the `crypto` package is a parameter of the
embedding (an uninterpreted function); everything the repository itself
computes (base64 key decoding, prehash construction, query-string and JSON
serialization, timestamp arithmetic) is defined concretely from the source.
-/

namespace HitBtc

/-! ## JavaScript value model -/

/-- A JavaScript value, as far as the library's error-probing code observes
it: `undefined`, `null`, booleans, numbers, strings and plain objects (a list
of fields in insertion order). -/
inductive JsVal where
  | undefined : JsVal
  | nullv : JsVal
  | boolean : Bool → JsVal
  | number : Int → JsVal
  | string : String → JsVal
  | obj : List (String × JsVal) → JsVal

/-- JavaScript truthiness: `undefined`, `null`, `false`, `0` and the empty
string are falsy; objects are always truthy. -/
def JsVal.truthy : JsVal → Bool
  | .undefined => false
  | .nullv => false
  | .boolean b => b
  | .number n => n != 0
  | .string s => !s.isEmpty
  | .obj _ => true

/-- Field lookup in an object literal; a missing field reads as `undefined`. -/
def lookupField : List (String × JsVal) → String → JsVal
  | [], _ => .undefined
  | (k, v) :: rest, key => if k = key then v else lookupField rest key

/-- JavaScript property access `v.key`: throws a TypeError (modelled as
`Except.error`) when `v` is `undefined` or `null`; reads the field of an
object; yields `undefined` on any other primitive. -/
def getField : JsVal → String → Except String JsVal
  | .undefined, _ => .error "TypeError"
  | .nullv, _ => .error "TypeError"
  | .obj fields, key => .ok (lookupField fields key)
  | _, _ => .ok .undefined

/-- The rejection-unwrapping expression shared verbatim by every request
function in both variants of `src/index.ts`:

`err.response.data.error || err.response.data || err.response || err`.

The three property accesses are evaluated before the first disjunct can be
tested, so the whole expression throws a TypeError whenever `err.response` or
`err.response.data` is `undefined`/`null`. -/
def unwrapRejection (err : JsVal) : Except String JsVal := do
  let resp ← getField err "response"
  let data ← getField resp "data"
  let e ← getField data "error"
  if e.truthy then pure e
  else if data.truthy then pure data
  else if resp.truthy then pure resp
  else pure err

/-! ## Query-string and JSON serialization (the qs package and
`JSON.stringify`, as used by the repository on flat parameter objects) -/

/-- A primitive parameter value, matching the `IQueryParams` / `IPostBody`
index signatures (`string | number | boolean`), plus `undefined` for optional
parameters that were not supplied. -/
inductive JPrim where
  | s : String → JPrim
  | n : Int → JPrim
  | b : Bool → JPrim
  | undefined : JPrim
deriving DecidableEq

/-- A flat parameter object (query params or post body), fields in insertion
order. -/
abbrev QueryParams := List (String × JPrim)

/-- The post body shape (alias, as in the source). -/
abbrev IPostBody := QueryParams

/-- Hexadecimal digit (uppercase, as produced by percent-encoding). -/
def hexDigit (n : Nat) : Char :=
  if n < 10 then Char.ofNat (48 + n) else Char.ofNat (55 + n)

/-- RFC 3986 unreserved characters, which `qs.stringify` leaves unescaped. -/
def isUnreservedChar (c : Char) : Bool :=
  c.isAlphanum || c = '-' || c = '.' || c = '_' || c = '~'

/-- Percent-encode one character (UTF-8 bytes, `%HH` per byte). -/
def percentEncodeChar (c : Char) : String :=
  if isUnreservedChar c then String.singleton c
  else String.join ((String.utf8EncodeChar c).map fun b =>
    String.mk ['%', hexDigit (b.toNat / 16), hexDigit (b.toNat % 16)])

/-- Percent-encode a string. -/
def percentEncode (s : String) : String :=
  String.join (s.data.map percentEncodeChar)

/-- Render a primitive value the way `qs.stringify` does. -/
def primToString : JPrim → String
  | .s v => v
  | .n v => toString v
  | .b v => if v then "true" else "false"
  | .undefined => ""

/-- `qs.stringify` on a flat object: percent-encoded `key=value` pairs joined
by `&`; fields whose value is `undefined` are skipped. -/
def qsStringify (params : QueryParams) : String :=
  String.intercalate "&"
    ((params.filter fun p => p.2 != JPrim.undefined).map fun p =>
      percentEncode p.1 ++ "=" ++ percentEncode (primToString p.2))

/-- `qs.stringify` applied to a possibly-`null`/`undefined` argument, which
yields the empty string. -/
def qsStringifyOpt : Option QueryParams → String
  | some params => qsStringify params
  | none => ""

/-- Escape one character for a JSON string literal. -/
def jsonEscapeChar (c : Char) : String :=
  if c = '"' then "\\\""
  else if c = '\\' then "\\\\"
  else if c = '\n' then "\\n"
  else if c = '\r' then "\\r"
  else if c = '\t' then "\\t"
  else String.singleton c

/-- A JSON string literal. -/
def jsonString (s : String) : String :=
  "\"" ++ String.join (s.data.map jsonEscapeChar) ++ "\""

/-- One JSON value for a primitive field. -/
def jprimToJson : JPrim → String
  | .s v => jsonString v
  | .n v => toString v
  | .b v => if v then "true" else "false"
  | .undefined => ""

/-- `JSON.stringify` on a flat object: fields in insertion order, fields with
`undefined` values omitted. -/
def jsonStringify (body : IPostBody) : String :=
  "\x7b" ++
    String.intercalate ","
      ((body.filter fun p => p.2 != JPrim.undefined).map fun p =>
        jsonString p.1 ++ ":" ++ jprimToJson p.2) ++
  "\x7d"

/-! ## Base64 decoding (`new Buffer(privateKey, 'base64')`) -/

/-- Value of one base64 alphabet character; `none` for characters outside the
alphabet (Node ignores them, including padding). -/
def b64Val (c : Char) : Option Nat :=
  if 65 ≤ c.toNat ∧ c.toNat ≤ 90 then some (c.toNat - 65)
  else if 97 ≤ c.toNat ∧ c.toNat ≤ 122 then some (c.toNat - 97 + 26)
  else if 48 ≤ c.toNat ∧ c.toNat ≤ 57 then some (c.toNat - 48 + 52)
  else if c = '+' then some 62
  else if c = '/' then some 63
  else none

/-- Base64-decode a string to a byte list, accumulating 6-bit groups and
emitting every completed byte (Node `Buffer` semantics: stray trailing bits
are dropped). -/
def base64Decode (s : String) : List UInt8 :=
  let step : (Nat × Nat × List UInt8) → Nat → (Nat × Nat × List UInt8) :=
    fun st v =>
      let buf := st.1 * 64 + v
      let bits := st.2.1 + 6
      if 8 ≤ bits then
        (buf % 2 ^ (bits - 8), bits - 8, st.2.2 ++ [UInt8.ofNat (buf / 2 ^ (bits - 8))])
      else (buf, bits, st.2.2)
  ((s.data.filterMap b64Val).foldl step (0, 0, [])).2.2

/-! ## The signing helper (HMAC variant, `signMessage`)

`Date.now()` is surfaced as the input `nowMs` (integer milliseconds since
the epoch); `Date.now() / 1000` is JavaScript number division, modelled as
exact rational division (the quotient has at most three decimal digits, which
is what the JS number renders as in the template literal). The HMAC-SHA256
primitive of the external `crypto` package is the uninterpreted parameter
`hmac : List UInt8 → String → String` (key bytes and message to base64
digest). -/

/-- Decimal digits of the fractional part `f/1000` (three digits, trailing
zeros stripped), as JavaScript renders the number. -/
def fracDigits (f : Nat) : String :=
  let d3 := [Char.ofNat (48 + f / 100), Char.ofNat (48 + f / 10 % 10),
             Char.ofNat (48 + f % 10)]
  String.mk (((d3.reverse).dropWhile fun c => c = '0').reverse)

/-- The string interpolation of the JS number `nowMs / 1000` (seconds since
the epoch with up to three decimals). -/
def renderTimestamp (nowMs : Nat) : String :=
  if nowMs % 1000 = 0 then toString (nowMs / 1000)
  else toString (nowMs / 1000) ++ "." ++ fracDigits (nowMs % 1000)

/-- Shape of the signature object returned by `signMessage`. -/
structure ISignature where
  digest : String
  timestamp : ℚ

/-- The exported `signMessage(privateKey, path, method, body?)` helper:
takes the current clock reading `nowMs` (the `Date.now()` call) and the
external HMAC primitive; decodes the private key from base64, builds the
prehash `timestamp + METHOD + path (+ JSON body)`, and returns the digest
together with the (fractional) timestamp. -/
def signMessage (hmac : List UInt8 → String → String) (nowMs : Nat)
    (privateKey path method : String) (body : Option IPostBody) : ISignature :=
  let timestamp : ℚ := (nowMs : ℚ) / 1000
  let key := base64Decode privateKey
  let prehash :=
    match body with
    | some b => renderTimestamp nowMs ++ method.toUpper ++ path ++ jsonStringify b
    | none => renderTimestamp nowMs ++ method.toUpper ++ path
  ⟨hmac key prehash, timestamp⟩

/-! ## Shared request-agent configuration -/

/-- The fixed exchange REST root (`defaultConfig.rootUrl`). -/
def rootUrl : String := "https://api.hitbtc.com/api/2"

/-- The fixed request timeout (`defaultConfig.timeout`). -/
def defaultTimeout : Nat := 3000

/-- The fixed default headers of `defaultAgentConfig` (shared by the public
and private agent configurations). -/
def defaultHeaders : List (String × String) :=
  [("Content-Type", "application/json"),
   ("User-Agent", "HitBTC API Client (hitbtc-cryptoexchange-api node package)")]

/-- The `auth` field of an axios config: HTTP Basic Auth credentials. -/
structure HttpBasicAuth where
  username : String
  password : String
deriving DecidableEq

/-- The outgoing request description: the axios config object each request
function constructs and forwards to the HTTP transport. -/
structure AgentConfig where
  baseURL : String
  headers : List (String × String)
  method : String
  timeout : Nat
  url : String
  auth : Option HttpBasicAuth
  data : Option QueryParams
deriving DecidableEq

/-- The caller-supplied `IHitBtcRequestConfig` override, modelled with the one
axios member the repository's own code paths consult (`config.headers`); the
field is optional because a config object need not carry a `headers` key. -/
structure ReqConfig where
  headers : Option (List (String × String))
deriving DecidableEq

/-- Set one field of a JS object modelled as an association list: overwrite in
place when the key exists, append otherwise (object spread semantics). -/
def setField (fs : List (String × String)) (kv : String × String) :
    List (String × String) :=
  if fs.any fun p => p.1 = kv.1 then
    fs.map fun p => if p.1 = kv.1 then (p.1, kv.2) else p
  else fs ++ [kv]

/-- Merge of two JS objects by spread: fields of `b` override fields of
`a`. -/
def mergeFields (a b : List (String × String)) : List (String × String) :=
  b.foldl setField a

/-- The `headers` key read off an optional config object
(`config ? config.headers : null`). -/
def configHeaders : Option ReqConfig → Option (List (String × String))
  | some c => c.headers
  | none => none

/-- The headers variable computed inside each private request function:
`{ ...privateAgentConfig.headers, ...headersOverride }`. -/
def computedHeaders (cfg : Option ReqConfig) : List (String × String) :=
  match configHeaders cfg with
  | some h => mergeFields defaultHeaders h
  | none => defaultHeaders

/-- The final headers of the outgoing config after the trailing `...config`
spread, which re-overrides the `headers` key with `config.headers` whenever
that key is present. -/
def finalHeaders (cfg : Option ReqConfig) : List (String × String) :=
  match configHeaders cfg with
  | some h => h
  | none => computedHeaders cfg

/-- What a request function produces before any network traffic happens:
a pre-flight rejection (the promise rejects and no HTTP request is issued),
a thrown TypeError, or an outgoing request carrying its axios config. -/
inductive Outcome where
  | rejected : String → Outcome
  | crash : String → Outcome
  | request : AgentConfig → Outcome
deriving DecidableEq

/-- The final result of running an operation against a transport: the model
of the settled promise. -/
inductive FinalResult where
  | resolved : JsVal → FinalResult
  | rejected : JsVal → FinalResult
  | crash : String → FinalResult

/-- Run an outcome against a transport (`axios`): a pre-flight rejection or
crash never reaches the transport; a request either resolves with the
transport's response or enters the shared catch block, whose
`unwrapRejection` chain itself may throw. -/
def complete (o : Outcome) (transport : AgentConfig → Except JsVal JsVal) :
    FinalResult :=
  match o with
  | .rejected msg => .rejected (.string msg)
  | .crash msg => .crash msg
  | .request cfg =>
    match transport cfg with
    | .ok v => .resolved v
    | .error err =>
      match unwrapRejection err with
      | .ok r => .rejected r
      | .error te => .crash te

/-- The fixed message rejected by every private request issued without
credentials. -/
def authRequiredMsg : String := "api keys are required to access private endpoints"

namespace Basic

/-! ## Basic Auth variant (first half of `src/index.ts`) -/

/-- The credential pair of the Basic Auth variant. -/
structure IApiAuth where
  publicKey : String
  privateKey : String
deriving DecidableEq

/-- The raw agent state.  `getRawAgent` is a factory whose parameter `auth`
is captured both as the object property `this.auth` (read by `isUpgraded` and
replaced by `upgrade`) and as the closure variable `auth` (read by
`privateRequest` when it builds `httpBasicAuth`).  The two are distinct after
an `upgrade`, so the model keeps both. -/
structure RawAgent where
  ctorAuth : Option IApiAuth
  thisAuth : Option IApiAuth
deriving DecidableEq

/-- The `getRawAgent` factory: property and closure variable start out
identical. -/
def getRawAgent (auth : Option IApiAuth) : RawAgent := ⟨auth, auth⟩

/-- `isUpgraded(): boolean { return this.auth; }` — an object is truthy,
`undefined` is falsy. -/
def RawAgent.isUpgraded (a : RawAgent) : Bool := a.thisAuth.isSome

/-- `upgrade(newAuth) { this.auth = newAuth; }` — replaces the property only;
the closure variable is untouched. -/
def RawAgent.upgrade (a : RawAgent) (newAuth : IApiAuth) : RawAgent :=
  ⟨a.ctorAuth, some newAuth⟩

/-- `publicRequest(endpoint, queryParams?, config?)`: GET to
`/{endpoint}?{qs(queryParams)}` against the fixed base URL; the trailing
`...config` spread may replace the headers. -/
def publicRequest (endpoint : String) (queryParams : Option QueryParams)
    (config : Option ReqConfig) : AgentConfig :=
  let uri := "/" ++ endpoint ++ "?" ++ qsStringifyOpt queryParams
  ⟨rootUrl, finalHeaders config, "GET", defaultTimeout, uri, none, none⟩

/-- `privateRequest(endpoint, method, dataParams?, config?)`: rejects with
the fixed message when no credentials are set; otherwise drops the body and
joins `qs(dataParams)` onto the path with a `/` for GET (all other verbs keep
`dataParams` as the request body and use the plain path); then builds
`httpBasicAuth` from the closure variable `auth` — a TypeError when the agent
was constructed without credentials — and issues the request. -/
def RawAgent.privateRequest (agent : RawAgent) (endpoint method : String)
    (dataParams : Option QueryParams) (config : Option ReqConfig) : Outcome :=
  if !agent.isUpgraded then .rejected authRequiredMsg
  else
    let data := if method = "GET" then none else dataParams
    let uri :=
      if method = "GET" then "/" ++ endpoint ++ "/" ++ qsStringifyOpt dataParams
      else "/" ++ endpoint
    match agent.ctorAuth with
    | none => .crash "TypeError"
    | some a =>
      let httpBasicAuth : HttpBasicAuth := ⟨a.publicKey, a.privateKey⟩
      .request ⟨rootUrl, finalHeaders config, method, defaultTimeout, uri,
                some httpBasicAuth, data⟩

/-- The client facade state: an embedded raw agent plus the captured
`configOverride` (default `null`). -/
structure Client where
  rawAgent : RawAgent
  configOverride : Option ReqConfig
deriving DecidableEq

/-- The `getClient` factory. -/
def getClient (auth : Option IApiAuth) (configOverride : Option ReqConfig) :
    Client :=
  ⟨getRawAgent auth, configOverride⟩

/-- `isUpgraded` on the client delegates to the raw agent. -/
def Client.isUpgraded (c : Client) : Bool := c.rawAgent.isUpgraded

/-- `upgrade` on the client delegates to the raw agent. -/
def Client.upgrade (c : Client) (newAuth : IApiAuth) : Client :=
  ⟨c.rawAgent.upgrade newAuth, c.configOverride⟩

/-! ### Market-data (public) operations -/

def Client.getAvailableCurrencySymbols (c : Client) : AgentConfig :=
  publicRequest "public/symbol" none c.configOverride

def Client.getSymbolInfo (c : Client) (symbolId : String) : AgentConfig :=
  publicRequest ("public/symbol/" ++ symbolId) none c.configOverride

def Client.getAvailableCurrencies (c : Client) : AgentConfig :=
  publicRequest "public/currency" none c.configOverride

def Client.getCurrencyInfo (c : Client) (currencyId : String) : AgentConfig :=
  publicRequest ("public/symbol/" ++ currencyId) none c.configOverride

def Client.getTicker (c : Client) : AgentConfig :=
  publicRequest "public/ticker" none c.configOverride

def Client.getTickerInfo (c : Client) (symbolId : String) : AgentConfig :=
  publicRequest ("public/ticker/" ++ symbolId) none c.configOverride

def Client.getTradesInfo (c : Client) (symbolId : String)
    (queryParams : QueryParams) : AgentConfig :=
  publicRequest ("public/trades/" ++ symbolId) (some queryParams) c.configOverride

def Client.getOrderBook (c : Client) (symbolId : String)
    (queryParams : QueryParams) : AgentConfig :=
  publicRequest ("public/orderbook/" ++ symbolId) (some queryParams) c.configOverride

def Client.getCandle (c : Client) (symbolId : String)
    (queryParams : QueryParams) : AgentConfig :=
  publicRequest ("public/candles/" ++ symbolId) (some queryParams) c.configOverride

/-! ### Trading / history / account (private) operations -/

def Client.listOpenOrders (c : Client) (symbolId : Option String) : Outcome :=
  c.rawAgent.privateRequest "order" "GET"
    (some [("symbol", match symbolId with | some s => JPrim.s s | none => JPrim.undefined)])
    c.configOverride

def Client.createNewOrder (c : Client) (params : QueryParams) : Outcome :=
  c.rawAgent.privateRequest "order" "POST" (some params) c.configOverride

def Client.cancelAllOrders (c : Client) (params : Option QueryParams) : Outcome :=
  c.rawAgent.privateRequest "order" "DELETE" params c.configOverride

def Client.getOrderByClientId (c : Client) (clientOrderId : String)
    (params : QueryParams) : Outcome :=
  c.rawAgent.privateRequest ("order/" ++ clientOrderId) "POST" (some params)
    c.configOverride

def Client.createNewClientIdOrder (c : Client) (clientOrderId : String)
    (params : QueryParams) : Outcome :=
  c.rawAgent.privateRequest ("order/" ++ clientOrderId) "PUT" (some params)
    c.configOverride

def Client.cancelClientIdOrder (c : Client) (clientOrderId : String) : Outcome :=
  c.rawAgent.privateRequest ("order/" ++ clientOrderId) "DELETE" none
    c.configOverride

def Client.replaceOrder (c : Client) (clientOrderId : String) : Outcome :=
  c.rawAgent.privateRequest ("order/" ++ clientOrderId) "PATCH" none
    c.configOverride

def Client.getTradingBalances (c : Client) : Outcome :=
  c.rawAgent.privateRequest "trading/balance" "GET" none c.configOverride

def Client.getTradingFee (c : Client) (symbolId : String) : Outcome :=
  c.rawAgent.privateRequest ("trading/fee/" ++ symbolId) "GET" none
    c.configOverride

def Client.getTrades (c : Client) (params : Option QueryParams) : Outcome :=
  c.rawAgent.privateRequest "history/trades" "GET" params c.configOverride

def Client.getOrders (c : Client) (params : Option QueryParams) : Outcome :=
  c.rawAgent.privateRequest "history/order" "GET" params c.configOverride

def Client.getTradesByOrderId (c : Client) (orderId : Int) : Outcome :=
  c.rawAgent.privateRequest ("history/order/" ++ toString orderId ++ "/trades")
    "GET" none c.configOverride

def Client.getMainAccountBalance (c : Client) : Outcome :=
  c.rawAgent.privateRequest "account/balance" "GET" none c.configOverride

def Client.getAccountTransactions (c : Client) (params : Option QueryParams) :
    Outcome :=
  c.rawAgent.privateRequest "account/transactions" "GET" params c.configOverride

def Client.getAccountTransactionById (c : Client) (transactionId : String) :
    Outcome :=
  c.rawAgent.privateRequest ("account/transaction/" ++ transactionId) "GET" none
    c.configOverride

def Client.withdrawCrypto (c : Client) (params : QueryParams) : Outcome :=
  c.rawAgent.privateRequest "account/crypto/withdraw" "POST" (some params)
    c.configOverride

def Client.commitCryptoWithdraw (c : Client) (id : String) : Outcome :=
  c.rawAgent.privateRequest ("account/crypto/withdraw/" ++ id) "PUT" none
    c.configOverride

def Client.rollbackCryptoWithdraw (c : Client) (id : String) : Outcome :=
  c.rawAgent.privateRequest ("account/crypto/withdraw/" ++ id) "DELETE" none
    c.configOverride

def Client.getCryptoDepositAddress (c : Client) (currencyId : String) : Outcome :=
  c.rawAgent.privateRequest ("account/crypto/address/" ++ currencyId) "GET" none
    c.configOverride

def Client.createCryptoDepositAddress (c : Client) (currencyId : String) :
    Outcome :=
  c.rawAgent.privateRequest ("account/crypto/address/" ++ currencyId) "GET" none
    c.configOverride

def Client.transferToTrading (c : Client) (params : QueryParams) : Outcome :=
  c.rawAgent.privateRequest "account/transfer" "POST" (some params)
    c.configOverride

end Basic

namespace Hmac

/-! ## HMAC variant (second half of `src/index.ts`) -/

/-- The credential triple of the HMAC variant (`IApiAuth` with a
passphrase). -/
structure IApiAuth where
  publicKey : String
  privateKey : String
  passphrase : String
deriving DecidableEq

/-- The raw agent state.  In this variant the endpoint functions only consult
`this.auth` (through `isUpgraded`); none of them read the credentials when
building a request, so the construction-time closure variable never becomes
observable and a single field suffices. -/
structure RawAgent where
  auth : Option IApiAuth
deriving DecidableEq

/-- The `getRawAgent` factory. -/
def getRawAgent (auth : Option IApiAuth) : RawAgent := ⟨auth⟩

/-- `isUpgraded(): boolean { return this.auth; }`. -/
def RawAgent.isUpgraded (a : RawAgent) : Bool := a.auth.isSome

/-- `upgrade(newAuth) { this.auth = newAuth; }`. -/
def RawAgent.upgrade (_ : RawAgent) (newAuth : IApiAuth) : RawAgent :=
  ⟨some newAuth⟩

/-- `getPublicEndpoint(endpoint, queryParams?, config?)`: identical to the
Basic variant's `publicRequest`. -/
def getPublicEndpoint (endpoint : String) (queryParams : Option QueryParams)
    (config : Option ReqConfig) : AgentConfig :=
  let uri := "/" ++ endpoint ++ "?" ++ qsStringifyOpt queryParams
  ⟨rootUrl, finalHeaders config, "GET", defaultTimeout, uri, none, none⟩

/-- `getFromPrivateEndpoint(endpoint, queryParams?, config?)`: guard, then a
GET to `/{endpoint}?{qs(queryParams)}`; no credential material is attached
(the config carries only the default/overridden headers and no auth field). -/
def RawAgent.getFromPrivateEndpoint (agent : RawAgent) (endpoint : String)
    (queryParams : Option QueryParams) (config : Option ReqConfig) : Outcome :=
  if !agent.isUpgraded then .rejected authRequiredMsg
  else
    let uri := "/" ++ endpoint ++ "?" ++ qsStringifyOpt queryParams
    .request ⟨rootUrl, finalHeaders config, "GET", defaultTimeout, uri, none, none⟩

/-- `deleteFromPrivateEndpoint(endpoint, queryParams?, config?)`: guard, then
a DELETE to `/{endpoint}?{qs(queryParams)}`; no credential material is
attached. -/
def RawAgent.deleteFromPrivateEndpoint (agent : RawAgent) (endpoint : String)
    (queryParams : Option QueryParams) (config : Option ReqConfig) : Outcome :=
  if !agent.isUpgraded then .rejected authRequiredMsg
  else
    let uri := "/" ++ endpoint ++ "?" ++ qsStringifyOpt queryParams
    .request ⟨rootUrl, finalHeaders config, "DELETE", defaultTimeout, uri, none, none⟩

/-- `postToPrivateEndpoint(endpoint, data?, config?)`: guard, then a POST to
`/{endpoint}` with `data` as the body; no credential material is attached. -/
def RawAgent.postToPrivateEndpoint (agent : RawAgent) (endpoint : String)
    (data : Option QueryParams) (config : Option ReqConfig) : Outcome :=
  if !agent.isUpgraded then .rejected authRequiredMsg
  else
    .request ⟨rootUrl, finalHeaders config, "POST", defaultTimeout,
              "/" ++ endpoint, none, data⟩

/-- `putToPrivateEndpoint(endpoint, data?, config?)`: guard, then a PUT to
`/{endpoint}` with `data` as the body; no credential material is attached. -/
def RawAgent.putToPrivateEndpoint (agent : RawAgent) (endpoint : String)
    (data : Option QueryParams) (config : Option ReqConfig) : Outcome :=
  if !agent.isUpgraded then .rejected authRequiredMsg
  else
    .request ⟨rootUrl, finalHeaders config, "PUT", defaultTimeout,
              "/" ++ endpoint, none, data⟩

/-- `patchToPrivateEndpoint(endpoint, data?, config?)`: guard, then a PATCH
to `/{endpoint}` with `data` as the body; no credential material is
attached. -/
def RawAgent.patchToPrivateEndpoint (agent : RawAgent) (endpoint : String)
    (data : Option QueryParams) (config : Option ReqConfig) : Outcome :=
  if !agent.isUpgraded then .rejected authRequiredMsg
  else
    .request ⟨rootUrl, finalHeaders config, "PATCH", defaultTimeout,
              "/" ++ endpoint, none, data⟩

/-- The client facade state. -/
structure Client where
  rawAgent : RawAgent
  configOverride : Option ReqConfig
deriving DecidableEq

/-- The `getClient` factory. -/
def getClient (auth : Option IApiAuth) (configOverride : Option ReqConfig) :
    Client :=
  ⟨getRawAgent auth, configOverride⟩

/-- `isUpgraded` on the client delegates to the raw agent. -/
def Client.isUpgraded (c : Client) : Bool := c.rawAgent.isUpgraded

/-- `upgrade` on the client delegates to the raw agent. -/
def Client.upgrade (c : Client) (newAuth : IApiAuth) : Client :=
  ⟨c.rawAgent.upgrade newAuth, c.configOverride⟩

/-! ### Market-data (public) operations -/

def Client.getAvailableCurrencySymbols (c : Client) : AgentConfig :=
  getPublicEndpoint "public/symbol" none c.configOverride

def Client.getSymbolInfo (c : Client) (symbolId : String) : AgentConfig :=
  getPublicEndpoint ("public/symbol/" ++ symbolId) none c.configOverride

def Client.getAvailableCurrencies (c : Client) : AgentConfig :=
  getPublicEndpoint "public/currency" none c.configOverride

def Client.getCurrencyInfo (c : Client) (currencyId : String) : AgentConfig :=
  getPublicEndpoint ("public/symbol/" ++ currencyId) none c.configOverride

def Client.getTicker (c : Client) : AgentConfig :=
  getPublicEndpoint "public/ticker" none c.configOverride

def Client.getTickerInfo (c : Client) (symbolId : String) : AgentConfig :=
  getPublicEndpoint ("public/ticker/" ++ symbolId) none c.configOverride

def Client.getTradesInfo (c : Client) (symbolId : String)
    (queryParams : QueryParams) : AgentConfig :=
  getPublicEndpoint ("public/trades/" ++ symbolId) (some queryParams)
    c.configOverride

def Client.getOrderBook (c : Client) (symbolId : String)
    (queryParams : QueryParams) : AgentConfig :=
  getPublicEndpoint ("public/orderbook/" ++ symbolId) (some queryParams)
    c.configOverride

def Client.getCandle (c : Client) (symbolId : String)
    (queryParams : QueryParams) : AgentConfig :=
  getPublicEndpoint ("public/candles/" ++ symbolId) (some queryParams)
    c.configOverride

/-! ### Trading / history / account (private) operations -/

def Client.listOpenOrders (c : Client) (symbolId : String) : Outcome :=
  c.rawAgent.getFromPrivateEndpoint "order" (some [("symbol", JPrim.s symbolId)])
    c.configOverride

def Client.createNewOrder (c : Client) (params : QueryParams) : Outcome :=
  c.rawAgent.postToPrivateEndpoint "order" (some params) c.configOverride

def Client.cancelAllOrders (c : Client) (params : Option QueryParams) : Outcome :=
  c.rawAgent.deleteFromPrivateEndpoint "order" params c.configOverride

def Client.getOrderByClientId (c : Client) (clientOrderId : String)
    (params : QueryParams) : Outcome :=
  c.rawAgent.postToPrivateEndpoint ("order/" ++ clientOrderId) (some params)
    c.configOverride

def Client.createNewClientIdOrder (c : Client) (clientOrderId : String)
    (params : QueryParams) : Outcome :=
  c.rawAgent.putToPrivateEndpoint ("order/" ++ clientOrderId) (some params)
    c.configOverride

def Client.cancelClientIdOrder (c : Client) (clientOrderId : String) : Outcome :=
  c.rawAgent.deleteFromPrivateEndpoint ("order/" ++ clientOrderId) none
    c.configOverride

def Client.replaceOrder (c : Client) (clientOrderId : String) : Outcome :=
  c.rawAgent.patchToPrivateEndpoint ("order/" ++ clientOrderId) none
    c.configOverride

def Client.getTradingBalances (c : Client) : Outcome :=
  c.rawAgent.getFromPrivateEndpoint "trading/balance" none c.configOverride

def Client.getTradingFee (c : Client) (symbolId : String) : Outcome :=
  c.rawAgent.getFromPrivateEndpoint ("trading/fee/" ++ symbolId) none
    c.configOverride

def Client.getTrades (c : Client) (params : Option QueryParams) : Outcome :=
  c.rawAgent.getFromPrivateEndpoint "history/trades" params c.configOverride

def Client.getOrders (c : Client) (params : Option QueryParams) : Outcome :=
  c.rawAgent.getFromPrivateEndpoint "history/order" params c.configOverride

def Client.getTradesByOrderId (c : Client) (orderId : Int) : Outcome :=
  c.rawAgent.getFromPrivateEndpoint
    ("history/order/" ++ toString orderId ++ "/trades") none c.configOverride

def Client.getMainAccountBalance (c : Client) : Outcome :=
  c.rawAgent.getFromPrivateEndpoint "account/balance" none c.configOverride

def Client.getAccountTransactions (c : Client) (params : Option QueryParams) :
    Outcome :=
  c.rawAgent.getFromPrivateEndpoint "account/transactions" params c.configOverride

def Client.getAccountTransactionById (c : Client) (transactionId : String) :
    Outcome :=
  c.rawAgent.getFromPrivateEndpoint ("account/transaction/" ++ transactionId)
    none c.configOverride

def Client.withdrawCrypto (c : Client) (params : QueryParams) : Outcome :=
  c.rawAgent.postToPrivateEndpoint "account/crypto/withdraw" (some params)
    c.configOverride

def Client.commitCryptoWithdraw (c : Client) (id : String) : Outcome :=
  c.rawAgent.putToPrivateEndpoint ("account/crypto/withdraw/" ++ id) none
    c.configOverride

def Client.rollbackCryptoWithdraw (c : Client) (id : String) : Outcome :=
  c.rawAgent.deleteFromPrivateEndpoint ("account/crypto/withdraw/" ++ id) none
    c.configOverride

def Client.getCryptoDepositAddress (c : Client) (currencyId : String) : Outcome :=
  c.rawAgent.getFromPrivateEndpoint ("account/crypto/address/" ++ currencyId)
    none c.configOverride

def Client.createCryptoDepositAddress (c : Client) (currencyId : String) :
    Outcome :=
  c.rawAgent.postToPrivateEndpoint ("account/crypto/address/" ++ currencyId)
    none c.configOverride

def Client.transferToTrading (c : Client) (params : QueryParams) : Outcome :=
  c.rawAgent.postToPrivateEndpoint "account/transfer" (some params)
    c.configOverride

end Hmac

/-! ## Helper lemmas -/

/-- Right cancellation for string concatenation. -/
theorem string_append_right_cancel (a b t : String) (h : a ++ t = b ++ t) :
    a = b := by
  have hd : a.data ++ t.data = b.data ++ t.data := by
    rw [← String.data_append, ← String.data_append, h]
  have hab : a.data = b.data := List.append_cancel_right hd
  cases a
  cases b
  exact congrArg String.mk hab

/-! ## Claims -/

/-- Claim C1: every private operation invoked on a client whose credential
state is unset rejects with the fixed message
`api keys are required to access private endpoints` and no HTTP request is
issued.  This holds for `privateRequest` (Basic Auth variant) at every
endpoint, verb, parameter object and config, for all five private endpoint
functions of the HMAC variant, and in particular for the client operations
`createNewOrder`, `getTradingBalances` and `withdrawCrypto` in both variants.
The pre-flight rejection never reaches the transport: composing with any
transport whatsoever yields the same rejected promise. -/
theorem claim_C1 :
    (∀ (endpoint method : String) (dataParams : Option QueryParams)
        (config : Option ReqConfig),
      (Basic.getRawAgent none).privateRequest endpoint method dataParams config
        = .rejected authRequiredMsg)
    ∧ (∀ (e : String) (q : Option QueryParams) (c : Option ReqConfig),
      (Hmac.getRawAgent none).getFromPrivateEndpoint e q c = .rejected authRequiredMsg
      ∧ (Hmac.getRawAgent none).deleteFromPrivateEndpoint e q c = .rejected authRequiredMsg
      ∧ (Hmac.getRawAgent none).postToPrivateEndpoint e q c = .rejected authRequiredMsg
      ∧ (Hmac.getRawAgent none).putToPrivateEndpoint e q c = .rejected authRequiredMsg
      ∧ (Hmac.getRawAgent none).patchToPrivateEndpoint e q c = .rejected authRequiredMsg)
    ∧ (∀ (params : QueryParams) (cfg : Option ReqConfig),
      (Basic.getClient none cfg).createNewOrder params = .rejected authRequiredMsg
      ∧ (Basic.getClient none cfg).getTradingBalances = .rejected authRequiredMsg
      ∧ (Basic.getClient none cfg).withdrawCrypto params = .rejected authRequiredMsg
      ∧ (Hmac.getClient none cfg).createNewOrder params = .rejected authRequiredMsg
      ∧ (Hmac.getClient none cfg).getTradingBalances = .rejected authRequiredMsg
      ∧ (Hmac.getClient none cfg).withdrawCrypto params = .rejected authRequiredMsg)
    ∧ (∀ (e m : String) (d : Option QueryParams) (c : Option ReqConfig)
        (transport : AgentConfig → Except JsVal JsVal),
      complete ((Basic.getRawAgent none).privateRequest e m d c) transport
        = .rejected (.string authRequiredMsg)) := by
  exact ⟨fun _ _ _ _ => rfl,
         fun _ _ _ => ⟨rfl, rfl, rfl, rfl, rfl⟩,
         fun _ _ => ⟨rfl, rfl, rfl, rfl, rfl, rfl⟩,
         fun _ _ _ _ _ => rfl⟩

/-- Claim C2 (evaluation at the failing input): the rejection-unwrapping
chain `err.response.data.error || err.response.data || err.response || err`
throws a TypeError for a transport error that carries no `response` field at
all (such as a network timeout), so the operation rejects with the TypeError
rather than with the raw error the claim and spec call for.  The two
most-specific cases do behave as specified, but an error whose `response` has
no `data` also crashes instead of falling back to `response`. -/
theorem claim_C2_bug :
    unwrapRejection (.obj [("message", .string "timeout")]) = .error "TypeError"
    ∧ complete ((Basic.getRawAgent (some ⟨"pub", "priv"⟩)).privateRequest
          "trading/balance" "GET" none none)
        (fun _ => .error (.obj [("message", .string "timeout")]))
        = .crash "TypeError"
    ∧ unwrapRejection
        (.obj [("response", .obj [("data", .obj [("error", .string "X")])])])
        = .ok (.string "X")
    ∧ unwrapRejection
        (.obj [("response", .obj [("data", .obj [("code", .number 1)])])])
        = .ok (.obj [("code", .number 1)])
    ∧ unwrapRejection (.obj [("response", .obj [("status", .number 504)])])
        = .error "TypeError" := by
  exact ⟨rfl, rfl, rfl, rfl, rfl⟩

/-- Claim C3 (evaluation at the failing inputs): in the Basic Auth variant,
`privateRequest` builds `httpBasicAuth` from the factory closure variable
`auth`, not from the mutable `this.auth` property that `upgrade` replaces.
A client constructed without credentials and then upgraded passes the
`isUpgraded` guard but throws a TypeError reading `auth.privateKey` of
`undefined`; a client constructed with one key pair and upgraded to another
keeps attaching the construction-time pair (third conjunct: this holds for
every pair of credential sets, endpoint, body and config). -/
theorem claim_C3_bug :
    ((Basic.getClient none none).upgrade ⟨"pub", "priv"⟩).listOpenOrders
        (some "ETHBTC") = .crash "TypeError"
    ∧ ((Basic.getClient (some ⟨"oldPub", "oldPriv"⟩) none).upgrade
          ⟨"newPub", "newPriv"⟩).getTradingBalances
        = .request ⟨rootUrl, defaultHeaders, "GET", defaultTimeout,
            "/trading/balance/", some ⟨"oldPub", "oldPriv"⟩, none⟩
    ∧ (∀ (a0 a1 : Basic.IApiAuth) (e : String) (d : Option QueryParams)
          (cfg : Option ReqConfig),
        ((Basic.getRawAgent (some a0)).upgrade a1).privateRequest e "POST" d cfg
          = .request ⟨rootUrl, finalHeaders cfg, "POST", defaultTimeout,
              "/" ++ e, some ⟨a0.publicKey, a0.privateKey⟩, d⟩) := by
  exact ⟨rfl, rfl, fun _ _ _ _ _ => rfl⟩

/-- Claim C4 (evaluation at the failing inputs): in the HMAC variant no
private endpoint function attaches any credential-derived material to the
outgoing request.  For a credentialed agent the built config carries exactly
the two fixed default headers, an empty `auth` field and no signature; in
fact the outgoing request is identical for any two credential sets (the
stored keys never flow into it), and `signMessage` is never invoked by any
request path. -/
theorem claim_C4_bug :
    (∀ (a : Hmac.IApiAuth) (e : String) (q : Option QueryParams),
      (Hmac.getRawAgent (some a)).getFromPrivateEndpoint e q none
        = .request ⟨rootUrl, defaultHeaders, "GET", defaultTimeout,
            "/" ++ e ++ "?" ++ qsStringifyOpt q, none, none⟩)
    ∧ (∀ (a : Hmac.IApiAuth) (e : String) (d : Option QueryParams),
      (Hmac.getRawAgent (some a)).postToPrivateEndpoint e d none
        = .request ⟨rootUrl, defaultHeaders, "POST", defaultTimeout,
            "/" ++ e, none, d⟩)
    ∧ (∀ (a1 a2 : Hmac.IApiAuth) (e : String) (q d : Option QueryParams)
          (cfg : Option ReqConfig),
      (Hmac.getRawAgent (some a1)).getFromPrivateEndpoint e q cfg
        = (Hmac.getRawAgent (some a2)).getFromPrivateEndpoint e q cfg
      ∧ (Hmac.getRawAgent (some a1)).postToPrivateEndpoint e d cfg
        = (Hmac.getRawAgent (some a2)).postToPrivateEndpoint e d cfg
      ∧ (Hmac.getRawAgent (some a1)).putToPrivateEndpoint e d cfg
        = (Hmac.getRawAgent (some a2)).putToPrivateEndpoint e d cfg
      ∧ (Hmac.getRawAgent (some a1)).patchToPrivateEndpoint e d cfg
        = (Hmac.getRawAgent (some a2)).patchToPrivateEndpoint e d cfg
      ∧ (Hmac.getRawAgent (some a1)).deleteFromPrivateEndpoint e q cfg
        = (Hmac.getRawAgent (some a2)).deleteFromPrivateEndpoint e q cfg)
    ∧ ((Hmac.getClient (some ⟨"pub", "priv", "pass"⟩) none).getTradingBalances
        = .request ⟨rootUrl, defaultHeaders, "GET", defaultTimeout,
            "/trading/balance?", none, none⟩) := by
  exact ⟨fun _ _ _ => rfl, fun _ _ _ => rfl,
         fun _ _ _ _ _ _ => ⟨rfl, rfl, rfl, rfl, rfl⟩, rfl⟩

/-- Claim C5 (evaluation at the failing input): in the Basic Auth variant a
credentialed GET `privateRequest` joins the query string onto the endpoint
with a slash — `listOpenOrders("ETHBTC")` issues
`/order/symbol=ETHBTC`, not the query-string form `/order?symbol=ETHBTC` the
claim states — while sending no body (second conjunct, general form); the
non-GET half of the claim does hold: every other verb uses the plain
`/{endpoint}` path and sends `dataParams` as the request body (third
conjunct, for POST). -/
theorem claim_C5_bug :
    ((Basic.getClient (some ⟨"pub", "priv"⟩) none).listOpenOrders (some "ETHBTC")
        = .request ⟨rootUrl, defaultHeaders, "GET", defaultTimeout,
            "/order/symbol=ETHBTC", some ⟨"pub", "priv"⟩, none⟩)
    ∧ (∀ (a : Basic.IApiAuth) (e : String) (d : Option QueryParams)
          (cfg : Option ReqConfig),
        (Basic.getRawAgent (some a)).privateRequest e "GET" d cfg
          = .request ⟨rootUrl, finalHeaders cfg, "GET", defaultTimeout,
              "/" ++ e ++ "/" ++ qsStringifyOpt d,
              some ⟨a.publicKey, a.privateKey⟩, none⟩)
    ∧ (∀ (a : Basic.IApiAuth) (e : String) (params : QueryParams)
          (cfg : Option ReqConfig),
        (Basic.getRawAgent (some a)).privateRequest e "POST" (some params) cfg
          = .request ⟨rootUrl, finalHeaders cfg, "POST", defaultTimeout,
              "/" ++ e, some ⟨a.publicKey, a.privateKey⟩, some params⟩) := by
  exact ⟨rfl, fun _ _ _ _ => rfl, fun _ _ _ _ => rfl⟩

/-- Claim C6: `signMessage(privateKey, path, method, body?)` returns a pair
whose timestamp is the exact (fractional, not integer-truncated) quotient of
the epoch milliseconds by 1000, and whose digest is the external HMAC-SHA256
primitive applied to the base64-decoding of the private key and the prehash
string `timestamp ++ uppercase(method) ++ path ++ JSON(body)` when a body is
present, and `timestamp ++ uppercase(method) ++ path` when it is absent. -/
theorem claim_C6 :
    ∀ (hmac : List UInt8 → String → String) (nowMs : Nat)
      (privateKey path method : String) (body : Option IPostBody),
      (signMessage hmac nowMs privateKey path method body).timestamp
          = (nowMs : ℚ) / 1000
      ∧ (1000 : ℚ) * (signMessage hmac nowMs privateKey path method body).timestamp
          = (nowMs : ℚ)
      ∧ (signMessage hmac nowMs privateKey path method body).digest
          = hmac (base64Decode privateKey)
              (match body with
               | some b =>
                 renderTimestamp nowMs ++ method.toUpper ++ path ++ jsonStringify b
               | none => renderTimestamp nowMs ++ method.toUpper ++ path) := by
  intro hmac nowMs privateKey path method body
  refine ⟨rfl, ?_, ?_⟩
  · show (1000 : ℚ) * ((nowMs : ℚ) / 1000) = (nowMs : ℚ)
    field_simp
  · cases body <;> rfl

/-- Claim C7: every public client operation issues a GET whose path is the
documented endpoint template with path parameters interpolated and the
caller-supplied parameters query-string-encoded; in particular
`getOrderBook("ETHBTC", limit 5)` issues GET
`/public/orderbook/ETHBTC?limit=5` relative to the fixed base URL.  Stated
for all nine operations of both variants, over every client state. -/
theorem claim_C7 :
    (∀ (c : Basic.Client) (s : String) (q : QueryParams),
      c.getAvailableCurrencySymbols.method = "GET"
      ∧ c.getAvailableCurrencySymbols.url = "/public/symbol?"
      ∧ c.getAvailableCurrencies.method = "GET"
      ∧ c.getAvailableCurrencies.url = "/public/currency?"
      ∧ c.getTicker.method = "GET"
      ∧ c.getTicker.url = "/public/ticker?"
      ∧ (c.getSymbolInfo s).method = "GET"
      ∧ (c.getSymbolInfo s).url = "/" ++ ("public/symbol/" ++ s) ++ "?"
      ∧ (c.getCurrencyInfo s).method = "GET"
      ∧ (c.getCurrencyInfo s).url = "/" ++ ("public/symbol/" ++ s) ++ "?"
      ∧ (c.getTickerInfo s).method = "GET"
      ∧ (c.getTickerInfo s).url = "/" ++ ("public/ticker/" ++ s) ++ "?"
      ∧ (c.getTradesInfo s q).method = "GET"
      ∧ (c.getTradesInfo s q).url
          = "/" ++ ("public/trades/" ++ s) ++ "?" ++ qsStringify q
      ∧ (c.getOrderBook s q).method = "GET"
      ∧ (c.getOrderBook s q).url
          = "/" ++ ("public/orderbook/" ++ s) ++ "?" ++ qsStringify q
      ∧ (c.getCandle s q).method = "GET"
      ∧ (c.getCandle s q).url
          = "/" ++ ("public/candles/" ++ s) ++ "?" ++ qsStringify q)
    ∧ (∀ (c : Hmac.Client) (s : String) (q : QueryParams),
      c.getAvailableCurrencySymbols.method = "GET"
      ∧ c.getAvailableCurrencySymbols.url = "/public/symbol?"
      ∧ c.getAvailableCurrencies.method = "GET"
      ∧ c.getAvailableCurrencies.url = "/public/currency?"
      ∧ c.getTicker.method = "GET"
      ∧ c.getTicker.url = "/public/ticker?"
      ∧ (c.getSymbolInfo s).method = "GET"
      ∧ (c.getSymbolInfo s).url = "/" ++ ("public/symbol/" ++ s) ++ "?"
      ∧ (c.getCurrencyInfo s).method = "GET"
      ∧ (c.getCurrencyInfo s).url = "/" ++ ("public/symbol/" ++ s) ++ "?"
      ∧ (c.getTickerInfo s).method = "GET"
      ∧ (c.getTickerInfo s).url = "/" ++ ("public/ticker/" ++ s) ++ "?"
      ∧ (c.getTradesInfo s q).method = "GET"
      ∧ (c.getTradesInfo s q).url
          = "/" ++ ("public/trades/" ++ s) ++ "?" ++ qsStringify q
      ∧ (c.getOrderBook s q).method = "GET"
      ∧ (c.getOrderBook s q).url
          = "/" ++ ("public/orderbook/" ++ s) ++ "?" ++ qsStringify q
      ∧ (c.getCandle s q).method = "GET"
      ∧ (c.getCandle s q).url
          = "/" ++ ("public/candles/" ++ s) ++ "?" ++ qsStringify q)
    ∧ ((Basic.getClient none none).getOrderBook "ETHBTC" [("limit", JPrim.n 5)]
        = ⟨rootUrl, defaultHeaders, "GET", defaultTimeout,
            "/public/orderbook/ETHBTC?limit=5", none, none⟩) := by
  refine ⟨fun c s q => ?_, fun c s q => ?_, rfl⟩
  · refine ⟨rfl, rfl, rfl, rfl, rfl, rfl, rfl, ?_, rfl, ?_, rfl, ?_,
            rfl, rfl, rfl, rfl, rfl, rfl⟩
    all_goals
      simp [Basic.Client.getSymbolInfo, Basic.Client.getCurrencyInfo,
        Basic.Client.getTickerInfo, Basic.publicRequest, qsStringifyOpt,
        String.append_empty]
  · refine ⟨rfl, rfl, rfl, rfl, rfl, rfl, rfl, ?_, rfl, ?_, rfl, ?_,
            rfl, rfl, rfl, rfl, rfl, rfl⟩
    all_goals
      simp [Hmac.Client.getSymbolInfo, Hmac.Client.getCurrencyInfo,
        Hmac.Client.getTickerInfo, Hmac.getPublicEndpoint, qsStringifyOpt,
        String.append_empty]

/-- Claim C8: after `upgrade(a)` on any client, `isUpgraded()` reports true;
a fresh client constructed without credentials reports false.  Stated for
both variants. -/
theorem claim_C8 :
    (∀ (c : Basic.Client) (a : Basic.IApiAuth), (c.upgrade a).isUpgraded = true)
    ∧ (∀ (cfg : Option ReqConfig), (Basic.getClient none cfg).isUpgraded = false)
    ∧ (∀ (c : Hmac.Client) (a : Hmac.IApiAuth), (c.upgrade a).isUpgraded = true)
    ∧ (∀ (cfg : Option ReqConfig), (Hmac.getClient none cfg).isUpgraded = false) := by
  exact ⟨fun _ _ => rfl, fun _ => rfl, fun _ _ => rfl, fun _ => rfl⟩

/-- Claim C9: `signMessage` is deterministic in its inputs plus the clock.
First part: for two clock readings whose rendered timestamps differ, the
prehash strings differ, so as long as the external HMAC primitive does not
collide on the key at hand (it is modelled as an uninterpreted function, so
collision-freedom is a hypothesis) the digests differ.  Second part: two
evaluations whose timestamp components agree were given the same clock
reading and hence agree entirely (timestamp and digest). -/
theorem claim_C9 :
    ∀ (hmac : List UInt8 → String → String)
      (privateKey path method : String) (body : Option IPostBody),
      (∀ ms1 ms2 : Nat,
        (∀ s1 s2 : String,
          hmac (base64Decode privateKey) s1 = hmac (base64Decode privateKey) s2 →
          s1 = s2) →
        renderTimestamp ms1 ≠ renderTimestamp ms2 →
        (signMessage hmac ms1 privateKey path method body).digest
          ≠ (signMessage hmac ms2 privateKey path method body).digest)
      ∧ (∀ ms1 ms2 : Nat,
        (signMessage hmac ms1 privateKey path method body).timestamp
          = (signMessage hmac ms2 privateKey path method body).timestamp →
        signMessage hmac ms1 privateKey path method body
          = signMessage hmac ms2 privateKey path method body) := by
  intro hmac privateKey path method body
  constructor
  · intro ms1 ms2 hinj hne hdig
    apply hne
    cases body with
    | none =>
      simp only [signMessage] at hdig
      have hpre := hinj _ _ hdig
      exact string_append_right_cancel _ _ _
        (string_append_right_cancel _ _ _ hpre)
    | some b =>
      simp only [signMessage] at hdig
      have hpre := hinj _ _ hdig
      exact string_append_right_cancel _ _ _
        (string_append_right_cancel _ _ _
          (string_append_right_cancel _ _ _ hpre))
  · intro ms1 ms2 hts
    have h1 : (ms1 : ℚ) / 1000 = (ms2 : ℚ) / 1000 := hts
    have h3 : ms1 = ms2 := by field_simp at h1; exact h1
    rw [h3]

/-- Witness for claim C9: with the (injective) identity-on-message HMAC
stand-in and clock readings one second apart, the two digests differ; with
the same clock reading the signatures coincide. -/
theorem claim_C9_witness :
    ((signMessage (fun _ s => s) 1000 "k" "/order" "POST" none).digest
      ≠ (signMessage (fun _ s => s) 2000 "k" "/order" "POST" none).digest)
    ∧ signMessage (fun _ s => s) 1000 "k" "/order" "POST" none
      = signMessage (fun _ s => s) 1000 "k" "/order" "POST" none := by
  constructor
  · exact (claim_C9 (fun _ s => s) "k" "/order" "POST" none).1 1000 2000
      (fun _ _ h => h) (by decide)
  · exact (claim_C9 (fun _ s => s) "k" "/order" "POST" none).2 1000 1000 rfl

/-- Claim C10: in the Basic Auth variant, `createCryptoDepositAddress` and
`getCryptoDepositAddress` are observationally equivalent — the same function
of the client state, issuing one identical GET request with no body to the
`account/crypto/address/{currencyId}` endpoint — while in the HMAC variant
`createCryptoDepositAddress` issues a POST (and `getCryptoDepositAddress` a
GET) to that endpoint. -/
theorem claim_C10 :
    (∀ (c : Basic.Client) (cid : String),
      c.createCryptoDepositAddress cid = c.getCryptoDepositAddress cid)
    ∧ (∀ (a : Basic.IApiAuth) (cid : String),
      (Basic.getClient (some a) none).createCryptoDepositAddress cid
        = .request ⟨rootUrl, defaultHeaders, "GET", defaultTimeout,
            "/" ++ ("account/crypto/address/" ++ cid) ++ "/",
            some ⟨a.publicKey, a.privateKey⟩, none⟩)
    ∧ (∀ (a : Hmac.IApiAuth) (cid : String),
      (Hmac.getClient (some a) none).createCryptoDepositAddress cid
        = .request ⟨rootUrl, defaultHeaders, "POST", defaultTimeout,
            "/" ++ ("account/crypto/address/" ++ cid), none, none⟩)
    ∧ (∀ (a : Hmac.IApiAuth) (cid : String),
      (Hmac.getClient (some a) none).getCryptoDepositAddress cid
        = .request ⟨rootUrl, defaultHeaders, "GET", defaultTimeout,
            "/" ++ ("account/crypto/address/" ++ cid) ++ "?", none, none⟩) := by
  refine ⟨fun c cid => rfl, fun a cid => ?_, fun a cid => rfl, fun a cid => ?_⟩
  · simp [Basic.Client.createCryptoDepositAddress, Basic.getClient,
      Basic.getRawAgent, Basic.RawAgent.privateRequest, Basic.RawAgent.isUpgraded,
      finalHeaders, configHeaders, computedHeaders,
      qsStringifyOpt, String.append_empty]
  · simp [Hmac.Client.getCryptoDepositAddress, Hmac.getClient,
      Hmac.getRawAgent, Hmac.RawAgent.getFromPrivateEndpoint,
      Hmac.RawAgent.isUpgraded, finalHeaders, configHeaders, computedHeaders,
      qsStringifyOpt, String.append_empty]

end HitBtc
